import Mathlib

/-!
Shallow embedding of three Terraform provider resource handlers:

* internal/service/guardduty/threatintelset.go (aws_guardduty_threatintelset)
* internal/service/emr/studio.go              (aws_emr_studio)
* internal/service/ssm (part_000)             (aws_ssm_activation)

Remote calls are modelled by passing the remote response (or a per-attempt
response function) to the handler, and each handler additionally returns the
list of remote requests it issued.  Terraform's ResourceData is modelled as a
flat record of the schema fields plus the identity, the IsNewResource flag and
the set of keys reporting a pending change.
-/

namespace Tf

/-- Diagnostics returned by a handler: the list of error messages.
An empty list means success. -/
abbrev Diags := List String

/-- An AWS API error, as observed through tfawserr: an error code and a
message. -/
structure AWSError where
  code : String
  message : String
deriving Repr, DecidableEq

/-- Whether sub occurs as a contiguous sublist of the second list. -/
def hasSubList (sub : List Char) : List Char → Bool
  | [] => sub.isEmpty
  | c :: cs => sub.isPrefixOf (c :: cs) || hasSubList sub cs

/-- Go strings.Contains: sub occurs as a contiguous substring of s. -/
def strContains (s sub : String) : Bool :=
  hasSubList sub.toList s.toList

/-- tfawserr.ErrMessageContains: the error has the given code and its message
contains the given substring. -/
def errMessageContains (e : AWSError) (code sub : String) : Bool :=
  e.code == code && strContains e.message sub

/-- tfawserr.ErrCodeEquals: the error has the given code. -/
def errCodeEquals (e : AWSError) (code : String) : Bool :=
  e.code == code

/-- Modelled from the spec: the provider's tag helpers (internal/tags, not
under src/).  "KeyValueTags(...).IgnoreAWS()" drops tags whose key carries the
AWS-internal key namespace. -/
def ignoreAWS (ts : List (String × String)) : List (String × String) :=
  ts.filter (fun kv => !(String.isPrefixOf "aws:" kv.1))

/-- Modelled from the spec: ".IgnoreConfig(ignoreTagsConfig)" drops tags whose
key is in the configured ignore list. -/
def ignoreConfig (ignoreKeys : List String) (ts : List (String × String)) :
    List (String × String) :=
  ts.filter (fun kv => !(ignoreKeys.contains kv.1))

/-- Modelled from the spec: ".RemoveDefaultConfig(defaultTagsConfig)" removes
the default-injected tag entries from a tag set; it only ever removes
entries. -/
def removeDefaultConfig (defaults ts : List (String × String)) :
    List (String × String) :=
  ts.filter (fun kv => !(defaults.contains kv))

/-- Modelled from the spec: "defaultTagsConfig.MergeTags(tags)" merges the
default tag set with the user tags, the user tags winning on key clashes. -/
def mergeTags (defaults userTags : List (String × String)) :
    List (String × String) :=
  (defaults.filter (fun kv => !(userTags.any (fun kv2 => kv2.1 == kv.1)))) ++ userTags

/-- The provider-level client configuration shared by the handlers: the
default tag set, the ignored tag keys and the ARN components. -/
structure ClientCtx where
  defaultTags : List (String × String)
  ignoreKeys : List String
  awsPartition : String
  region : String
  accountID : String
deriving Repr, DecidableEq

/-! ### Go time: the RFC3339 layout

Model of Go's time.Parse / time.Format with the time.RFC3339 layout
("2006-01-02T15:04:05Z07:00").  Parse accepts an optional fractional-seconds
part even though the layout has none; Format drops it.  An offset of zero is
rendered "Z". -/

/-- A parsed Go time value, as far as the RFC3339 layout observes it. -/
structure GoTime where
  year : Nat
  month : Nat
  day : Nat
  hour : Nat
  minute : Nat
  second : Nat
  fracDigits : List Char
  offsetMinutes : Int
deriving Repr, DecidableEq

/-- The zero Go time value (aws.TimeValue of a nil pointer). -/
def zeroGoTime : GoTime :=
  { year := 1, month := 1, day := 1, hour := 0, minute := 0, second := 0,
    fracDigits := [], offsetMinutes := 0 }

/-- Two decimal digits. -/
def d2 (a b : Char) : Option Nat :=
  if a.isDigit && b.isDigit then
    some ((a.toNat - 48) * 10 + (b.toNat - 48))
  else none

/-- Four decimal digits. -/
def d4 (a b c d : Char) : Option Nat :=
  match d2 a b, d2 c d with
  | some hi, some lo => some (hi * 100 + lo)
  | _, _ => none

def isLeapYear (y : Nat) : Bool :=
  (y % 4 == 0 && y % 100 != 0) || (y % 400 == 0)

def daysInMonth (y m : Nat) : Nat :=
  if m == 2 then (if isLeapYear y then 29 else 28)
  else if m == 4 || m == 6 || m == 9 || m == 11 then 30
  else 31

/-- The numeric zone offset: "Z", or a sign with "HH:MM". -/
def parseOffset : List Char → Option Int
  | ['Z'] => some 0
  | [s, h1, h2, ':', m1, m2] =>
    if s == '+' || s == '-' then
      match d2 h1 h2, d2 m1 m2 with
      | some hh, some mm =>
        if hh ≤ 23 && mm ≤ 59 then
          let v : Int := (hh * 60 + mm : Nat)
          some (if s == '-' then -v else v)
        else none
      | _, _ => none
    else none
  | _ => none

/-- Optional fractional seconds (a point and at least one digit) followed by
the zone offset. -/
def parseFracOffset (l : List Char) : Option (List Char × Int) :=
  match l with
  | '.' :: rest =>
    let digs := rest.takeWhile Char.isDigit
    let rest2 := rest.dropWhile Char.isDigit
    if digs.isEmpty then none
    else
      match parseOffset rest2 with
      | some off => some (digs, off)
      | none => none
  | _ =>
    match parseOffset l with
    | some off => some ([], off)
    | none => none

/-- Go time.Parse with the RFC3339 layout. -/
def parseRFC3339 (s : String) : Option GoTime :=
  match s.toList with
  | y1 :: y2 :: y3 :: y4 :: '-' :: mo1 :: mo2 :: '-' :: dd1 :: dd2 :: 'T' ::
    h1 :: h2 :: ':' :: mi1 :: mi2 :: ':' :: s1 :: s2 :: rest =>
    match d4 y1 y2 y3 y4, d2 mo1 mo2, d2 dd1 dd2, d2 h1 h2, d2 mi1 mi2, d2 s1 s2 with
    | some y, some mo, some dd, some hh, some mi, some ss =>
      if 1 ≤ mo && mo ≤ 12 && 1 ≤ dd && dd ≤ daysInMonth y mo &&
         hh ≤ 23 && mi ≤ 59 && ss ≤ 59 then
        match parseFracOffset rest with
        | some (digs, off) => some ⟨y, mo, dd, hh, mi, ss, digs, off⟩
        | none => none
      else none
    | _, _, _, _, _, _ => none
  | _ => none

def pad2 (n : Nat) : String :=
  if n < 10 then "0" ++ toString n else toString n

def pad4 (n : Nat) : String :=
  if n < 10 then "000" ++ toString n
  else if n < 100 then "00" ++ toString n
  else if n < 1000 then "0" ++ toString n
  else toString n

/-- Rendering of the zone offset under the RFC3339 layout: zero prints "Z". -/
def formatOffset (m : Int) : String :=
  if m == 0 then "Z"
  else
    (if m < 0 then "-" else "+") ++ pad2 (m.natAbs / 60) ++ ":" ++ pad2 (m.natAbs % 60)

/-- Go time.Format with the RFC3339 layout; fractional seconds are dropped
because the layout has no fractional part. -/
def formatRFC3339 (t : GoTime) : String :=
  pad4 t.year ++ "-" ++ pad2 t.month ++ "-" ++ pad2 t.day ++ "T" ++
  pad2 t.hour ++ ":" ++ pad2 t.minute ++ ":" ++ pad2 t.second ++
  formatOffset t.offsetMinutes

/-! ### Go strings.Split on a single-character separator -/

/-- Split a character list on a separator character; Go strings.Split
semantics: the number of parts is the number of separators plus one. -/
def splitSep (sep : Char) : List Char → List (List Char)
  | [] => [[]]
  | c :: cs =>
    if c == sep then [] :: splitSep sep cs
    else
      match splitSep sep cs with
      | [] => [[c]]
      | h :: t => (c :: h) :: t

/-- Go strings.Split of a string on a one-character separator. -/
def goSplit (s : String) (sep : Char) : List String :=
  (splitSep sep s.toList).map (fun l => String.mk l)

/-! ### The plugin SDK helpers

retry.StateChangeConf / WaitForStateContext and retry.RetryContext live in the
terraform-plugin-sdk, outside this repository's shown sources; they are
modelled from the spec: poll a status against an enumerated pending set until
an enumerated target value appears or the overall timeout elapses (with a
minimum interval between polls), and retry a call on retryable errors within a
bounded window. -/

/-- retry.StateChangeConf: the poll configuration. -/
structure StateChangeConf where
  pending : List String
  target : List String
  timeoutSec : Nat
  minTimeoutSec : Nat
deriving Repr, DecidableEq

/-- Outcome of a poll loop; success and the error outcomes record the index of
the observation they were produced by. -/
inductive WaitResult where
  | success (status : String) (i : Nat)
  | timedOut
  | refreshErr (e : AWSError) (i : Nat)
  | unexpected (status : String) (i : Nat)
deriving Repr, DecidableEq

/-- Modelled from the spec: the poll loop body.  The second argument is the
number of polls still allowed by the overall timeout; observation i is the
i-th refresh result. -/
def waitLoop (pending target : List String) (refresh : Nat → Except AWSError String) :
    Nat → Nat → WaitResult
  | _, 0 => .timedOut
  | i, n + 1 =>
    match refresh i with
    | .error e => .refreshErr e i
    | .ok st =>
      if target.contains st then .success st i
      else if pending.contains st then waitLoop pending target refresh (i + 1) n
      else .unexpected st i

/-- Modelled from the spec: WaitForStateContext polls at least every
minTimeoutSec seconds until timeoutSec elapses, so at most
timeoutSec / minTimeoutSec observations happen. -/
def waitForState (c : StateChangeConf) (refresh : Nat → Except AWSError String) :
    WaitResult :=
  waitLoop c.pending c.target refresh 0 (c.timeoutSec / c.minTimeoutSec)

/-- Number of refresh calls a finished poll loop has issued (fuel is the poll
budget the loop started with). -/
def waitCalls (fuel : Nat) : WaitResult → Nat
  | .success _ i => i + 1
  | .refreshErr _ i => i + 1
  | .unexpected _ i => i + 1
  | .timedOut => fuel

/-- The error message WaitForStateContext reports for a failed wait. -/
def waitMessage : WaitResult → String
  | .success s _ => s
  | .timedOut => "timeout while waiting for state"
  | .refreshErr e _ => e.message
  | .unexpected s _ => "unexpected state: " ++ s

/-- Outcome of retry.RetryContext: success, a non-retryable error (both with
the number of attempts made), or the bounded window elapsing while the last
error was still retryable. -/
inductive RetryOutcome (α : Type) where
  | ok (a : α) (attempts : Nat)
  | nonRetryable (e : AWSError) (attempts : Nat)
  | timedOut (e : AWSError)
deriving Repr, DecidableEq

/-- Modelled from the spec: retry.RetryContext.  Attempt i is call i; fuel is
the number of further attempts the bounded window still allows.  A retryable
error is retried while the window lasts; any other error ends the loop at
once. -/
def retryLoop (retryable : AWSError → Bool) (call : Nat → Except AWSError α) :
    Nat → Nat → RetryOutcome α
  | i, 0 =>
    match call i with
    | .ok a => .ok a (i + 1)
    | .error e => if retryable e then .timedOut e else .nonRetryable e (i + 1)
  | i, f + 1 =>
    match call i with
    | .ok a => .ok a (i + 1)
    | .error e =>
      if retryable e then retryLoop retryable call (i + 1) f
      else .nonRetryable e (i + 1)

namespace GuardDuty

/-! ### internal/service/guardduty/threatintelset.go -/

/-- The guardduty ThreatIntelSetStatus enumeration. -/
def ThreatIntelSetStatusActivating : String := "ACTIVATING"
def ThreatIntelSetStatusActive : String := "ACTIVE"
def ThreatIntelSetStatusDeactivating : String := "DEACTIVATING"
def ThreatIntelSetStatusInactive : String := "INACTIVE"
def ThreatIntelSetStatusDeletePending : String := "DELETE_PENDING"
def ThreatIntelSetStatusDeleted : String := "DELETED"

/-- The ResourceData record of aws_guardduty_threatintelset: the schema
fields, the identity, IsNewResource, and the keys with a pending change. -/
structure TISState where
  id : String
  isNew : Bool
  changes : List String
  arn : String
  detector_id : String
  name : String
  format : String
  location : String
  activate : Bool
  tags : List (String × String)
  tags_all : List (String × String)
deriving Repr, DecidableEq

/-- d.HasChange(k). -/
def hasChange (d : TISState) (k : String) : Bool := d.changes.contains k

structure CreateTISInput where
  detectorId : String
  name : String
  format : String
  location : String
  activate : Bool
  tags : List (String × String)
deriving Repr, DecidableEq

structure CreateTISOutput where
  threatIntelSetId : String
deriving Repr, DecidableEq

structure UpdateTISInput where
  detectorId : String
  threatIntelSetId : String
  name : Option String
  location : Option String
  activate : Option Bool
deriving Repr, DecidableEq

/-- GetThreatIntelSet response. -/
structure GetTISOutput where
  format : String
  location : String
  name : String
  status : String
  tags : List (String × String)
deriving Repr, DecidableEq

/-- A remote request issued by one of the threat-intel-set handlers. -/
inductive TISCall where
  | createThreatIntelSet (input : CreateTISInput)
  | getThreatIntelSet (detectorId threatIntelSetId : String)
  | updateThreatIntelSet (input : UpdateTISInput)
  | updateTags
  | deleteThreatIntelSet (detectorId threatIntelSetId : String)
deriving Repr, DecidableEq

/-- The error message of DecodeThreatIntelSetID for a malformed identifier. -/
def decodeErrorMessage (id : String) : String :=
  "GuardDuty ThreatIntelSet ID must be of the form <Detector ID>:<ThreatIntelSet ID>, was provided: " ++ id

/-- DecodeThreatIntelSetID: split the composite identifier on the separator;
exactly two parts are required, and the result is
(threatIntelSetID, detectorID). -/
def DecodeThreatIntelSetID (id : String) : Except String (String × String) :=
  match goSplit id ':' with
  | [detectorID, threatIntelSetID] => .ok (threatIntelSetID, detectorID)
  | _ => .error (decodeErrorMessage id)

/-- The message matched by the not-found test in resourceThreatIntelSetRead. -/
def detectorNotOwnedMessage : String :=
  "The request is rejected because the input detectorId is not owned by the current account."

/-- resourceThreatIntelSetRead.  getResp is what GetThreatIntelSet would
answer.  Returns the new state, the diagnostics and the issued requests. -/
def resourceThreatIntelSetRead (client : ClientCtx)
    (getResp : Except AWSError GetTISOutput) (d : TISState) :
    TISState × Diags × List TISCall :=
  match DecodeThreatIntelSetID d.id with
  | .error msg =>
    (d, ["reading GuardDuty Threat Intel Set (" ++ d.id ++ "): " ++ msg], [])
  | .ok (threatIntelSetId, detectorId) =>
    match getResp with
    | .error err =>
      if errMessageContains err "BadRequestException" detectorNotOwnedMessage then
        ({ d with id := "" }, [], [.getThreatIntelSet detectorId threatIntelSetId])
      else
        (d, ["reading GuardDuty Threat Intel Set (" ++ d.id ++ "): " ++ err.message],
         [.getThreatIntelSet detectorId threatIntelSetId])
    | .ok resp =>
      let arn := "arn:" ++ client.awsPartition ++ ":guardduty:" ++ client.region ++
        ":" ++ client.accountID ++ ":detector/" ++ detectorId ++ "/threatintelset/" ++
        threatIntelSetId
      let tags := ignoreConfig client.ignoreKeys (ignoreAWS resp.tags)
      ({ d with
          arn := arn,
          detector_id := detectorId,
          format := resp.format,
          location := resp.location,
          name := resp.name,
          activate := resp.status == ThreatIntelSetStatusActive,
          tags := removeDefaultConfig client.defaultTags tags,
          tags_all := tags },
       [], [.getThreatIntelSet detectorId threatIntelSetId])

/-- The StateChangeConf of resourceThreatIntelSetCreate: Timeout 5 minutes,
MinTimeout 3 seconds. -/
def tisCreateStateConf : StateChangeConf :=
  { pending := [ThreatIntelSetStatusActivating, ThreatIntelSetStatusDeactivating],
    target := [ThreatIntelSetStatusActive, ThreatIntelSetStatusInactive],
    timeoutSec := 300, minTimeoutSec := 3 }

/-- The StateChangeConf of resourceThreatIntelSetDelete: Timeout 5 minutes,
MinTimeout 3 seconds. -/
def tisDeleteStateConf : StateChangeConf :=
  { pending := [ThreatIntelSetStatusActive, ThreatIntelSetStatusActivating,
      ThreatIntelSetStatusInactive, ThreatIntelSetStatusDeactivating,
      ThreatIntelSetStatusDeletePending],
    target := [ThreatIntelSetStatusDeleted],
    timeoutSec := 300, minTimeoutSec := 3 }

/-- The CreateThreatIntelSetInput built by resourceThreatIntelSetCreate. -/
def buildCreateTISInput (client : ClientCtx) (d : TISState) : CreateTISInput :=
  let tags := mergeTags client.defaultTags d.tags
  { detectorId := d.detector_id, name := d.name, format := d.format,
    location := d.location, activate := d.activate,
    tags := if tags.length > 0 then ignoreAWS tags else [] }

/-- resourceThreatIntelSetCreate: create, poll until ACTIVE or INACTIVE, set
the composite identifier, then read. -/
def resourceThreatIntelSetCreate (client : ClientCtx) (d : TISState)
    (createResp : CreateTISInput → Except AWSError CreateTISOutput)
    (refresh : Nat → Except AWSError String)
    (readResp : Except AWSError GetTISOutput) :
    TISState × Diags × List TISCall :=
  let input := buildCreateTISInput client d
  match createResp input with
  | .error e =>
    (d, ["creating GuardDuty Threat Intel Set (" ++ d.name ++ "): " ++ e.message],
     [.createThreatIntelSet input])
  | .ok resp =>
    match waitForState tisCreateStateConf refresh with
    | .success _ _ =>
      let d1 := { d with id := d.detector_id ++ ":" ++ resp.threatIntelSetId, isNew := true }
      let r := resourceThreatIntelSetRead client readResp d1
      (r.1, r.2.1, TISCall.createThreatIntelSet input :: r.2.2)
    | w =>
      (d, ["creating GuardDuty Threat Intel Set (" ++ d.name ++
           "): waiting for completion: " ++ waitMessage w],
       [.createThreatIntelSet input])

/-- The tags_all change and final re-read shared by the tail of
resourceThreatIntelSetUpdate (threatintelset.go lines 206-214). -/
def tisUpdateTagsThenRead (client : ClientCtx) (d : TISState)
    (tagsResp : Except AWSError Unit)
    (readResp : Except AWSError GetTISOutput)
    (tr : List TISCall) : TISState × Diags × List TISCall :=
  if hasChange d "tags_all" then
    match tagsResp with
    | .error e =>
      (d, ["updating GuardDuty Threat Intel Set (" ++ d.id ++ "): setting tags: " ++ e.message],
       tr ++ [.updateTags])
    | .ok _ =>
      let r := resourceThreatIntelSetRead client readResp d
      (r.1, r.2.1, tr ++ [TISCall.updateTags] ++ r.2.2)
  else
    let r := resourceThreatIntelSetRead client readResp d
    (r.1, r.2.1, tr ++ r.2.2)

/-- resourceThreatIntelSetUpdate. -/
def resourceThreatIntelSetUpdate (client : ClientCtx) (d : TISState)
    (updResp : UpdateTISInput → Except AWSError Unit)
    (tagsResp : Except AWSError Unit)
    (readResp : Except AWSError GetTISOutput) :
    TISState × Diags × List TISCall :=
  match DecodeThreatIntelSetID d.id with
  | .error msg =>
    (d, ["updating GuardDuty Threat Intel Set (" ++ d.id ++ "): " ++ msg], [])
  | .ok (threatIntelSetID, detectorId) =>
    if hasChange d "activate" || hasChange d "location" || hasChange d "name" then
      let input : UpdateTISInput :=
        { detectorId := detectorId, threatIntelSetId := threatIntelSetID,
          name := if hasChange d "name" then some d.name else none,
          location := if hasChange d "location" then some d.location else none,
          activate := if hasChange d "activate" then some d.activate else none }
      match updResp input with
      | .error e =>
        (d, ["updating GuardDuty Threat Intel Set (" ++ d.id ++ "): " ++ e.message],
         [.updateThreatIntelSet input])
      | .ok _ =>
        tisUpdateTagsThenRead client d tagsResp readResp [TISCall.updateThreatIntelSet input]
    else
      tisUpdateTagsThenRead client d tagsResp readResp []

/-- resourceThreatIntelSetDelete: delete, then poll until DELETED. -/
def resourceThreatIntelSetDelete (d : TISState)
    (delResp : Except AWSError Unit)
    (refresh : Nat → Except AWSError String) :
    TISState × Diags × List TISCall :=
  match DecodeThreatIntelSetID d.id with
  | .error msg =>
    (d, ["deleting GuardDuty Threat Intel Set (" ++ d.id ++ "): " ++ msg], [])
  | .ok (threatIntelSetID, detectorId) =>
    match delResp with
    | .error e =>
      (d, ["deleting GuardDuty Threat Intel Set (" ++ d.id ++ "): " ++ e.message],
       [.deleteThreatIntelSet detectorId threatIntelSetID])
    | .ok _ =>
      let w := waitForState tisDeleteStateConf refresh
      let polls := List.replicate
        (waitCalls (tisDeleteStateConf.timeoutSec / tisDeleteStateConf.minTimeoutSec) w)
        (TISCall.getThreatIntelSet detectorId threatIntelSetID)
      match w with
      | .success _ _ =>
        (d, [], TISCall.deleteThreatIntelSet detectorId threatIntelSetID :: polls)
      | r =>
        (d, ["waiting for GuardDuty ThreatIntelSet status to be \"DELETED\": " ++ waitMessage r],
         TISCall.deleteThreatIntelSet detectorId threatIntelSetID :: polls)

/-- The echo remote service for the round-trip claim: GetThreatIntelSet
returns exactly what was submitted, the activation flag echoed through the
status field. -/
def echoTIS (input : CreateTISInput) : GetTISOutput :=
  { format := input.format, location := input.location, name := input.name,
    status := if input.activate then ThreatIntelSetStatusActive else ThreatIntelSetStatusInactive,
    tags := input.tags }

end GuardDuty

namespace EMR

/-! ### internal/service/emr/studio.go -/

/-- The ResourceData record of aws_emr_studio. -/
structure StudioState where
  id : String
  isNew : Bool
  changes : List String
  arn : String
  auth_mode : String
  default_s3_location : String
  description : String
  engine_security_group_id : String
  idp_auth_url : String
  idp_relay_state_parameter_name : String
  name : String
  service_role : String
  url : String
  user_role : String
  vpc_id : String
  workspace_security_group_id : String
  subnet_ids : List String
  tags : List (String × String)
  tags_all : List (String × String)
deriving Repr, DecidableEq

/-- d.HasChange(k). -/
def hasChange (d : StudioState) (k : String) : Bool := d.changes.contains k

/-- d.HasChangesExcept(ks): some key outside ks reports a change. -/
def hasChangesExcept (d : StudioState) (ks : List String) : Bool :=
  d.changes.any (fun k => !(ks.contains k))

structure CreateStudioInput where
  authMode : String
  defaultS3Location : String
  engineSecurityGroupId : String
  name : String
  serviceRole : String
  subnetIds : List String
  vpcId : String
  workspaceSecurityGroupId : String
  description : Option String
  idpAuthUrl : Option String
  idpRelayStateParameterName : Option String
  userRole : Option String
  tags : List (String × String)
deriving Repr, DecidableEq

structure CreateStudioOutput where
  studioId : String
deriving Repr, DecidableEq

structure UpdateStudioInput where
  studioId : String
  description : Option String
  name : Option String
  defaultS3Location : Option String
  subnetIds : Option (List String)
deriving Repr, DecidableEq

/-- The remote studio object (DescribeStudio response used by
FindStudioByID). -/
structure Studio where
  studioArn : String
  authMode : String
  defaultS3Location : String
  description : String
  engineSecurityGroupId : String
  idpAuthUrl : String
  idpRelayStateParameterName : String
  name : String
  serviceRole : String
  url : String
  userRole : String
  vpcId : String
  workspaceSecurityGroupId : String
  subnetIds : List String
  tags : List (String × String)
deriving Repr, DecidableEq

/-- The result of FindStudioByID (itself outside the shown sources): the
studio, a not-found condition recognised by tfresource.NotFound, or another
error. -/
inductive FindError where
  | notFound
  | other (e : AWSError)
deriving Repr, DecidableEq

/-- The message a surfaced not-found condition carries (from the
tfresource NotFoundError, outside the shown sources). -/
def notFoundErrorMessage : String := "couldn't find resource"

/-- A remote request issued by one of the studio handlers. -/
inductive StudioCall where
  | createStudio (input : CreateStudioInput)
  | describeStudio (id : String)
  | updateStudio (input : UpdateStudioInput)
  | updateTags (id : String)
  | deleteStudio (id : String)
deriving Repr, DecidableEq

/-- resourceStudioRead.  find is what FindStudioByID would answer. -/
def resourceStudioRead (client : ClientCtx)
    (find : Except FindError Studio) (d : StudioState) : StudioState × Diags :=
  match find with
  | .error .notFound =>
    if !d.isNew then ({ d with id := "" }, [])
    else (d, ["reading EMR Studio (" ++ d.id ++ "): " ++ notFoundErrorMessage])
  | .error (.other e) =>
    (d, ["reading EMR Studio (" ++ d.id ++ "): " ++ e.message])
  | .ok studio =>
    let tags := ignoreConfig client.ignoreKeys (ignoreAWS studio.tags)
    ({ d with
        arn := studio.studioArn,
        auth_mode := studio.authMode,
        default_s3_location := studio.defaultS3Location,
        description := studio.description,
        engine_security_group_id := studio.engineSecurityGroupId,
        idp_auth_url := studio.idpAuthUrl,
        idp_relay_state_parameter_name := studio.idpRelayStateParameterName,
        name := studio.name,
        service_role := studio.serviceRole,
        url := studio.url,
        user_role := studio.userRole,
        vpc_id := studio.vpcId,
        workspace_security_group_id := studio.workspaceSecurityGroupId,
        subnet_ids := studio.subnetIds,
        tags := removeDefaultConfig client.defaultTags tags,
        tags_all := tags },
     [])

/-- The retryable-error patterns of resourceStudioCreate. -/
def studioRetryable (e : AWSError) : Bool :=
  errMessageContains e "InvalidRequestException"
    "entity does not have permissions to assume role" ||
  errMessageContains e "InvalidRequestException"
    "Service role does not have permission to access"

/-- The CreateStudioInput built by resourceStudioCreate; the optional fields
follow d.GetOk, which reports a value only when it is non-zero. -/
def buildCreateStudioInput (client : ClientCtx) (d : StudioState) : CreateStudioInput :=
  let tags := mergeTags client.defaultTags d.tags
  { authMode := d.auth_mode,
    defaultS3Location := d.default_s3_location,
    engineSecurityGroupId := d.engine_security_group_id,
    name := d.name,
    serviceRole := d.service_role,
    subnetIds := d.subnet_ids,
    vpcId := d.vpc_id,
    workspaceSecurityGroupId := d.workspace_security_group_id,
    description := if d.description ≠ "" then some d.description else none,
    idpAuthUrl := if d.idp_auth_url ≠ "" then some d.idp_auth_url else none,
    idpRelayStateParameterName :=
      if d.idp_relay_state_parameter_name ≠ "" then some d.idp_relay_state_parameter_name else none,
    userRole := if d.user_role ≠ "" then some d.user_role else none,
    tags := if tags.length > 0 then ignoreAWS tags else [] }

/-- resourceStudioCreate: retry the create within the propagation-timeout
window (fuel further attempts), make one final attempt if the window elapsed,
then set the identity and read. -/
def resourceStudioCreate (client : ClientCtx) (d : StudioState)
    (server : CreateStudioInput → Nat → Except AWSError CreateStudioOutput)
    (fuel : Nat) (readFind : Except FindError Studio) : StudioState × Diags :=
  let input := buildCreateStudioInput client d
  match retryLoop studioRetryable (server input) 0 fuel with
  | .ok result _ =>
    resourceStudioRead client readFind { d with id := result.studioId, isNew := true }
  | .nonRetryable e _ => (d, ["creating EMR Studio: " ++ e.message])
  | .timedOut _ =>
    match server input (fuel + 1) with
    | .ok result =>
      resourceStudioRead client readFind { d with id := result.studioId, isNew := true }
    | .error e => (d, ["creating EMR Studio: " ++ e.message])

/-- The UpdateStudioInput resourceStudioUpdate builds when a non-tag field
changed.  In studio.go (lines 182-202) this request is built and then
discarded: no UpdateStudio call is ever issued with it. -/
def buildUpdateStudioInput (d : StudioState) : Option UpdateStudioInput :=
  if hasChangesExcept d ["tags", "tags_all"] then
    some { studioId := d.id,
           description := if hasChange d "description" then some d.description else none,
           name := if hasChange d "name" then some d.name else none,
           defaultS3Location :=
             if hasChange d "default_s3_location" then some d.default_s3_location else none,
           subnetIds := if hasChange d "subnet_ids" then some d.subnet_ids else none }
  else none

/-- resourceStudioUpdate: the built UpdateStudioInput is dropped (mirroring
the source), tags are updated when tags_all changed, then the studio is
re-read. -/
def resourceStudioUpdate (client : ClientCtx) (d : StudioState)
    (tagsResp : Except AWSError Unit)
    (readFind : Except FindError Studio) : StudioState × Diags × List StudioCall :=
  let _input := buildUpdateStudioInput d
  if hasChange d "tags_all" then
    match tagsResp with
    | .error e =>
      (d, ["updating EMR Studio (" ++ d.id ++ ") tags: " ++ e.message],
       [.updateTags d.id])
    | .ok _ =>
      let r := resourceStudioRead client readFind d
      (r.1, r.2, [StudioCall.updateTags d.id, StudioCall.describeStudio d.id])
  else
    let r := resourceStudioRead client readFind d
    (r.1, r.2, [StudioCall.describeStudio d.id])

/-- resourceStudioDelete: a delete error with code InternalServerException is
swallowed; any other error is surfaced; no status poll follows. -/
def resourceStudioDelete (d : StudioState)
    (delResp : Except AWSError Unit) : StudioState × Diags × List StudioCall :=
  match delResp with
  | .error e =>
    if errCodeEquals e "InternalServerException" then (d, [], [.deleteStudio d.id])
    else (d, ["deleting EMR Studio (" ++ d.id ++ "): " ++ e.message], [.deleteStudio d.id])
  | .ok _ => (d, [], [.deleteStudio d.id])

end EMR

namespace SSM

/-! ### aws_ssm_activation (src/unnamed/part_000) -/

/-- The ResourceData record of aws_ssm_activation. -/
structure ActivationState where
  id : String
  isNew : Bool
  name : String
  description : String
  expired : Bool
  expiration_date : String
  iam_role : String
  registration_limit : Int
  registration_count : Int
  activation_code : String
  tags : List (String × String)
  tags_all : List (String × String)
deriving Repr, DecidableEq

structure CreateActivationInput where
  iamRole : String
  defaultInstanceName : Option String
  description : Option String
  expirationDate : Option GoTime
  registrationLimit : Option Int
  tags : List (String × String)
deriving Repr, DecidableEq

structure CreateActivationOutput where
  activationId : Option String
  activationCode : Option String
deriving Repr, DecidableEq

/-- One remote activation record as returned by DescribeActivations. -/
structure Activation where
  defaultInstanceName : Option String
  description : Option String
  expirationDate : Option GoTime
  expired : Bool
  iamRole : Option String
  registrationLimit : Option Int
  registrationsCount : Option Int
  tags : List (String × String)
deriving Repr, DecidableEq

/-- A remote request issued by one of the activation handlers. -/
inductive ActivationCall where
  | createActivation (input : CreateActivationInput)
  | describeActivations (id : String)
  | deleteActivation (id : String)
deriving Repr, DecidableEq

/-- The retryable-error pattern of resourceActivationCreate. -/
def activationRetryable (e : AWSError) : Bool :=
  errMessageContains e "ValidationException" "Not existing role"

/-- The CreateActivationInput built by resourceActivationCreate.  Note the
source initialises IamRole from the name field (part_000 line 89) before
overwriting it when iam_role reports a non-zero value through GetOk; the
optional fields follow GetOk, which reports a value only when non-zero. -/
def buildCreateActivationInput (client : ClientCtx) (d : ActivationState) :
    CreateActivationInput :=
  let tags := mergeTags client.defaultTags d.tags
  { iamRole := if d.iam_role ≠ "" then d.iam_role else d.name,
    defaultInstanceName := if d.name ≠ "" then some d.name else none,
    description := if d.description ≠ "" then some d.description else none,
    expirationDate :=
      if d.expiration_date ≠ "" then
        some ((parseRFC3339 d.expiration_date).getD zeroGoTime)
      else none,
    registrationLimit :=
      if d.registration_limit ≠ 0 then some d.registration_limit else none,
    tags := if tags.length > 0 then ignoreAWS tags else [] }

/-- resourceActivationRead.  The result is none when the Go code would panic:
with an empty ActivationList on a new resource the source indexes
resp.ActivationList[0] out of range (part_000 line 182). -/
def resourceActivationRead (client : ClientCtx)
    (describeResp : Except AWSError (List Activation)) (d : ActivationState) :
    Option (ActivationState × Diags) :=
  match describeResp with
  | .error e => some (d, ["reading SSM activation: " ++ e.message])
  | .ok lst =>
    if !d.isNew && lst.length == 0 then some ({ d with id := "" }, [])
    else
      match lst with
      | [] => none
      | a :: _ =>
        let tags := ignoreConfig client.ignoreKeys (ignoreAWS a.tags)
        some ({ d with
            name := a.defaultInstanceName.getD "",
            description := a.description.getD "",
            expiration_date := formatRFC3339 (a.expirationDate.getD zeroGoTime),
            expired := a.expired,
            iam_role := a.iamRole.getD "",
            registration_limit := a.registrationLimit.getD 0,
            registration_count := a.registrationsCount.getD 0,
            tags := removeDefaultConfig client.defaultTags tags,
            tags_all := tags },
          [])

/-- resourceActivationCreate: retry the create within the propagation-timeout
window (fuel further attempts) plus one final attempt after a timeout, then
set the identity and the activation code and read. -/
def resourceActivationCreate (client : ClientCtx) (d : ActivationState)
    (server : CreateActivationInput → Nat → Except AWSError CreateActivationOutput)
    (fuel : Nat)
    (describeResp : Except AWSError (List Activation)) :
    Option (ActivationState × Diags) :=
  let input := buildCreateActivationInput client d
  let finish := fun (resp : CreateActivationOutput) =>
    match resp.activationId with
    | none => some (d, ["ActivationId was nil"])
    | some aid =>
      resourceActivationRead client describeResp
        { d with id := aid, activation_code := resp.activationCode.getD "", isNew := true }
  match retryLoop activationRetryable (server input) 0 fuel with
  | .ok resp _ => finish resp
  | .nonRetryable e _ => some (d, ["creating SSM activation: " ++ e.message])
  | .timedOut _ =>
    match server input (fuel + 1) with
    | .ok resp => finish resp
    | .error e => some (d, ["creating SSM activation: " ++ e.message])

/-- resourceActivationDelete: no status poll follows the delete call. -/
def resourceActivationDelete (d : ActivationState)
    (delResp : Except AWSError Unit) : ActivationState × Diags × List ActivationCall :=
  match delResp with
  | .error e =>
    (d, ["deleting SSM activation: " ++ e.message], [.deleteActivation d.id])
  | .ok _ => (d, [], [.deleteActivation d.id])

/-- The echo remote service for the round-trip claim: DescribeActivations
returns exactly the record that was submitted. -/
def echoActivation (input : CreateActivationInput) : Activation :=
  { defaultInstanceName := input.defaultInstanceName,
    description := input.description,
    expirationDate := input.expirationDate,
    expired := false,
    iamRole := some input.iamRole,
    registrationLimit := input.registrationLimit,
    registrationsCount := none,
    tags := input.tags }

end SSM

/-! ### Fixtures used by the witness theorems -/

/-- A concrete provider client context. -/
def client0 : ClientCtx :=
  { defaultTags := [], ignoreKeys := [], awsPartition := "aws",
    region := "us-east-1", accountID := "123456789012" }

/-- A concrete threat-intel-set state with a well-formed composite id. -/
def tisState0 : GuardDuty.TISState :=
  { id := "det:tis", isNew := false, changes := [], arn := "",
    detector_id := "det", name := "n", format := "TXT",
    location := "https://s3.amazonaws.com/b/k", activate := true,
    tags := [], tags_all := [] }

/-- A concrete studio state. -/
def studioState0 : EMR.StudioState :=
  { id := "es-123", isNew := false, changes := [], arn := "",
    auth_mode := "SSO", default_s3_location := "s3://b/p", description := "",
    engine_security_group_id := "sg-1", idp_auth_url := "",
    idp_relay_state_parameter_name := "", name := "studio",
    service_role := "arn:aws:iam::1:role/sr", url := "", user_role := "",
    vpc_id := "vpc-1", workspace_security_group_id := "sg-2",
    subnet_ids := ["subnet-1"], tags := [], tags_all := [] }

/-- A concrete activation state. -/
def activationState0 : SSM.ActivationState :=
  { id := "act-1", isNew := false, name := "n", description := "",
    expired := false, expiration_date := "", iam_role := "role",
    registration_limit := 0, registration_count := 0, activation_code := "",
    tags := [], tags_all := [] }

/-! ## Helper lemmas -/

theorem splitSep_ne_nil (sep : Char) (l : List Char) : splitSep sep l ≠ [] := by
  induction l with
  | nil => simp [splitSep]
  | cons c cs ih =>
    rw [splitSep]
    split
    · simp
    · rcases h : splitSep sep cs with _ | ⟨x, xs⟩
      · exact absurd h ih
      · simp [h]

theorem splitSep_not_mem (sep : Char) (l : List Char) (h : sep ∉ l) :
    splitSep sep l = [l] := by
  induction l with
  | nil => rfl
  | cons c cs ih =>
    have hc : (c == sep) = false := by
      simp only [List.mem_cons, not_or] at h
      simp only [beq_eq_false_iff_ne, ne_eq]
      exact fun hcc => h.1 hcc.symm
    have hcs : sep ∉ cs := by
      simp only [List.mem_cons, not_or] at h
      exact h.2
    rw [splitSep, hc, ih hcs]
    simp

theorem splitSep_append (sep : Char) (xs ys : List Char) (h : sep ∉ xs) :
    splitSep sep (xs ++ sep :: ys) = xs :: splitSep sep ys := by
  induction xs with
  | nil => simp [splitSep]
  | cons c cs ih =>
    have hc : (c == sep) = false := by
      simp only [List.mem_cons, not_or] at h
      simp only [beq_eq_false_iff_ne, ne_eq]
      exact fun hcc => h.1 hcc.symm
    have hcs : sep ∉ cs := by
      simp only [List.mem_cons, not_or] at h
      exact h.2
    rw [List.cons_append, splitSep, hc, ih hcs]
    simp

theorem splitSep_length (sep : Char) (l : List Char) :
    (splitSep sep l).length = l.count sep + 1 := by
  induction l with
  | nil => simp [splitSep]
  | cons c cs ih =>
    rw [splitSep]
    rcases hc : (c == sep) with _ | _
    · rcases h2 : splitSep sep cs with _ | ⟨x, xs⟩
      · exact absurd h2 (splitSep_ne_nil sep cs)
      · rw [h2] at ih
        simp only [List.length_cons] at ih
        simp [hc, h2, List.count_cons, ih]
    · simp [hc, List.count_cons, ih]

theorem goSplit_length (s : String) (sep : Char) :
    (goSplit s sep).length = s.data.count sep + 1 := by
  unfold goSplit
  rw [List.length_map, splitSep_length]
  rfl

theorem goSplit_parts (a b : String) (sep : Char)
    (ha : sep ∉ a.data) (hb : sep ∉ b.data) :
    goSplit (a ++ String.mk [sep] ++ b) sep = [a, b] := by
  have hdata : (a ++ String.mk [sep] ++ b).toList = a.data ++ sep :: b.data := by
    have h1 : (a ++ String.mk [sep] ++ b).data = (a.data ++ [sep]) ++ b.data := rfl
    show (a ++ String.mk [sep] ++ b).data = a.data ++ sep :: b.data
    rw [h1, List.append_assoc]
    rfl
  unfold goSplit
  rw [hdata, splitSep_append sep a.data b.data ha, splitSep_not_mem sep b.data hb]
  rfl

theorem decode_error_of_length (id : String)
    (h : (goSplit id ':').length ≠ 2) :
    GuardDuty.DecodeThreatIntelSetID id = .error (GuardDuty.decodeErrorMessage id) := by
  unfold GuardDuty.DecodeThreatIntelSetID
  rcases hg : goSplit id ':' with _ | ⟨a, _ | ⟨b, _ | ⟨c, l⟩⟩⟩ <;> simp_all

theorem decode_ok_of_parts (a b : String) (ha : ':' ∉ a.data) (hb : ':' ∉ b.data) :
    GuardDuty.DecodeThreatIntelSetID (a ++ ":" ++ b) = .ok (b, a) := by
  have hmk : String.mk [':'] = ":" := rfl
  unfold GuardDuty.DecodeThreatIntelSetID
  rw [show a ++ ":" ++ b = a ++ String.mk [':'] ++ b from by rw [hmk],
    goSplit_parts a b ':' ha hb]

theorem waitLoop_step_target (pending target : List String)
    (refresh : Nat → Except AWSError String) (i n : Nat) (st : String)
    (hr : refresh i = .ok st) (ht : target.contains st = true) :
    waitLoop pending target refresh i (n + 1) = .success st i := by
  have ht2 : st ∈ target := by simpa using ht
  rw [waitLoop, hr]
  simp [ht2]

theorem waitLoop_step_pending (pending target : List String)
    (refresh : Nat → Except AWSError String) (i n : Nat) (st : String)
    (hr : refresh i = .ok st) (ht : target.contains st = false)
    (hp : pending.contains st = true) :
    waitLoop pending target refresh i (n + 1) =
      waitLoop pending target refresh (i + 1) n := by
  have ht2 : st ∉ target := by simpa using ht
  have hp2 : st ∈ pending := by simpa using hp
  rw [waitLoop, hr]
  simp [ht2, hp2]

theorem waitLoop_pp_t (pending target : List String)
    (refresh : Nat → Except AWSError String) (p1 p2 t : String) (n : Nat)
    (h0 : refresh 0 = .ok p1) (h1 : refresh 1 = .ok p2) (h2 : refresh 2 = .ok t)
    (hp1 : pending.contains p1 = true) (hp1t : target.contains p1 = false)
    (hp2 : pending.contains p2 = true) (hp2t : target.contains p2 = false)
    (ht : target.contains t = true) :
    waitLoop pending target refresh 0 (n + 3) = .success t 2 := by
  rw [waitLoop_step_pending pending target refresh 0 (n + 2) p1 h0 hp1t hp1,
    waitLoop_step_pending pending target refresh 1 (n + 1) p2 h1 hp2t hp2,
    waitLoop_step_target pending target refresh 2 n t h2 ht]

theorem waitLoop_always_pending (pending target : List String)
    (refresh : Nat → Except AWSError String)
    (h : ∀ i, ∃ s, refresh i = .ok s ∧ pending.contains s = true ∧
      target.contains s = false) :
    ∀ n i, waitLoop pending target refresh i n = .timedOut := by
  intro n
  induction n with
  | zero => intro i; rfl
  | succ n ih =>
    intro i
    obtain ⟨s, hr, hp, ht⟩ := h i
    rw [waitLoop_step_pending pending target refresh i n s hr ht hp]
    exact ih (i + 1)

theorem waitForState_always_pending (c : StateChangeConf)
    (refresh : Nat → Except AWSError String)
    (h : ∀ i, ∃ s, refresh i = .ok s ∧ c.pending.contains s = true ∧
      c.target.contains s = false) :
    waitForState c refresh = .timedOut :=
  waitLoop_always_pending c.pending c.target refresh h _ 0

theorem waitCalls_pos (fuel : Nat) (w : WaitResult) (hf : 0 < fuel) :
    0 < waitCalls fuel w := by
  cases w <;> simp [waitCalls] <;> omega

theorem retryLoop_first_error_nonretryable {α : Type} (retryable : AWSError → Bool)
    (call : Nat → Except AWSError α) (e : AWSError) (fuel : Nat)
    (hc : call 0 = .error e) (hr : retryable e = false) :
    retryLoop retryable call 0 fuel = .nonRetryable e 1 := by
  cases fuel <;> simp [retryLoop, hc, hr]

theorem retryLoop_first_error_retryable {α : Type} (retryable : AWSError → Bool)
    (call : Nat → Except AWSError α) (e : AWSError) (fuel : Nat)
    (hc : call 0 = .error e) (hr : retryable e = true) :
    retryLoop retryable call 0 (fuel + 1) = retryLoop retryable call 1 fuel := by
  simp [retryLoop, hc, hr]

/-- Equality of Except values over decidable components is decidable; used by
the concrete witnesses. -/
instance {ε α : Type} [DecidableEq ε] [DecidableEq α] :
    DecidableEq (Except ε α) := fun a b =>
  match a, b with
  | .ok x, .ok y =>
    if h : x = y then isTrue (by rw [h]) else isFalse (by simp [h])
  | .error x, .error y =>
    if h : x = y then isTrue (by rw [h]) else isFalse (by simp [h])
  | .ok _, .error _ => isFalse (by simp)
  | .error _, .ok _ => isFalse (by simp)

theorem retryLoop_first_ok {α : Type} (retryable : AWSError → Bool)
    (call : Nat → Except AWSError α) (a : α) (fuel : Nat)
    (hc : call 0 = .ok a) :
    retryLoop retryable call 0 fuel = .ok a 1 := by
  cases fuel <;> simp [retryLoop, hc]

theorem tisCreate_pending_not_target (s : String)
    (h : GuardDuty.tisCreateStateConf.pending.contains s = true) :
    GuardDuty.tisCreateStateConf.target.contains s = false := by
  simp [GuardDuty.tisCreateStateConf, GuardDuty.ThreatIntelSetStatusActivating,
    GuardDuty.ThreatIntelSetStatusDeactivating] at h
  rcases h with h | h <;> subst h <;> decide

theorem tisDelete_pending_not_target (s : String)
    (h : GuardDuty.tisDeleteStateConf.pending.contains s = true) :
    GuardDuty.tisDeleteStateConf.target.contains s = false := by
  simp [GuardDuty.tisDeleteStateConf, GuardDuty.ThreatIntelSetStatusActive,
    GuardDuty.ThreatIntelSetStatusActivating, GuardDuty.ThreatIntelSetStatusInactive,
    GuardDuty.ThreatIntelSetStatusDeactivating,
    GuardDuty.ThreatIntelSetStatusDeletePending] at h
  rcases h with h | h | h | h | h <;> subst h <;> decide

/-- The tags of a finished activation read are a subset of its tags_all; False
when the read crashes or did not produce a record. -/
def ssmReadTagsSubset (r : Option (SSM.ActivationState × Diags)) : Prop :=
  match r with
  | some res => res.1.tags ⊆ res.1.tags_all
  | none => False

/-- Round-trip contract for an activation create-then-read result: success and
the submitted name, description, role reference, expiration timestamp and
registration limit persisted unchanged. -/
def ssmRoundtrip (cfg : SSM.ActivationState)
    (r : Option (SSM.ActivationState × Diags)) : Prop :=
  match r with
  | some res =>
    res.2 = [] ∧
    res.1.name = cfg.name ∧
    res.1.description = cfg.description ∧
    res.1.iam_role = cfg.iam_role ∧
    res.1.expiration_date = cfg.expiration_date ∧
    res.1.registration_limit = cfg.registration_limit
  | none => False

/-- Round-trip contract for a threat-intel-set create-then-read result:
success and the submitted name, format, location and activation flag persisted
unchanged. -/
def tisRoundtrip (cfg : GuardDuty.TISState)
    (r : GuardDuty.TISState × Diags × List GuardDuty.TISCall) : Prop :=
  r.2.1 = [] ∧ r.1.name = cfg.name ∧ r.1.format = cfg.format ∧
  r.1.location = cfg.location ∧ r.1.activate = cfg.activate

/-- An activation configuration whose expiration timestamp carries fractional
seconds (valid RFC3339, accepted by the schema validation). -/
def activationCfgFrac : SSM.ActivationState :=
  { activationState0 with expiration_date := "2025-01-01T00:00:00.5Z", isNew := true }

/-- An activation configuration whose required role reference is the empty
string, exposing the IamRole-from-name initialisation. -/
def activationCfgNoRole : SSM.ActivationState :=
  { activationState0 with iam_role := "", isNew := true }

/-! ## Claims -/

/-- Claim C10: for every pair of strings neither of which contains the
separator character, decoding the composite identifier detectorID followed by
the separator followed by threatIntelSetID succeeds with exactly that
threatIntelSetID as first result and that detectorID as second result; if
either string contains the separator, decoding the formed identifier fails
with an error. -/
theorem decodeThreatIntelSetID_composite_roundtrip (a b : String) :
    (':' ∉ a.data → ':' ∉ b.data →
      GuardDuty.DecodeThreatIntelSetID (a ++ ":" ++ b) = .ok (b, a)) ∧
    ((':' ∈ a.data ∨ ':' ∈ b.data) →
      GuardDuty.DecodeThreatIntelSetID (a ++ ":" ++ b) =
        .error (GuardDuty.decodeErrorMessage (a ++ ":" ++ b))) := by
  constructor
  · exact fun ha hb => decode_ok_of_parts a b ha hb
  · intro hmem
    apply decode_error_of_length
    rw [goSplit_length]
    have hdata : (a ++ ":" ++ b).data = (a.data ++ [':']) ++ b.data := rfl
    have h1 : (a ++ ":" ++ b).data.count ':' =
        a.data.count ':' + 1 + b.data.count ':' := by
      rw [hdata]
      simp only [List.count_append, List.count_cons]
      simp
    rw [h1]
    rcases hmem with h | h
    · have hpos : 0 < a.data.count ':' := List.count_pos_iff.mpr h
      omega
    · have hpos : 0 < b.data.count ':' := List.count_pos_iff.mpr h
      omega

/-- Witness for C10 at concrete inputs: a separator-free pair decodes to the
swapped pair, and a detector id containing the separator makes decoding
fail. -/
theorem decodeThreatIntelSetID_composite_roundtrip_witness :
    GuardDuty.DecodeThreatIntelSetID ("det" ++ ":" ++ "tis") = .ok ("tis", "det") ∧
    GuardDuty.DecodeThreatIntelSetID ("de:t" ++ ":" ++ "tis") =
      .error (GuardDuty.decodeErrorMessage ("de:t" ++ ":" ++ "tis")) :=
  ⟨(decodeThreatIntelSetID_composite_roundtrip "det" "tis").1 (by decide) (by decide),
   (decodeThreatIntelSetID_composite_roundtrip "de:t" "tis").2 (Or.inl (by decide))⟩

/-- Claim C5: an identifier whose split on the separator does not yield
exactly two parts makes each of the threat-intel-set read, update and delete
handlers return the descriptive decode error (naming the expected form) and
issue no remote request. -/
theorem tisHandlers_reject_malformed_id (client : ClientCtx)
    (d : GuardDuty.TISState)
    (getResp : Except AWSError GuardDuty.GetTISOutput)
    (updResp : GuardDuty.UpdateTISInput → Except AWSError Unit)
    (tagsResp : Except AWSError Unit)
    (readResp : Except AWSError GuardDuty.GetTISOutput)
    (delResp : Except AWSError Unit)
    (refresh : Nat → Except AWSError String)
    (h : (goSplit d.id ':').length ≠ 2) :
    GuardDuty.resourceThreatIntelSetRead client getResp d =
      (d, ["reading GuardDuty Threat Intel Set (" ++ d.id ++ "): " ++
        GuardDuty.decodeErrorMessage d.id], []) ∧
    GuardDuty.resourceThreatIntelSetUpdate client d updResp tagsResp readResp =
      (d, ["updating GuardDuty Threat Intel Set (" ++ d.id ++ "): " ++
        GuardDuty.decodeErrorMessage d.id], []) ∧
    GuardDuty.resourceThreatIntelSetDelete d delResp refresh =
      (d, ["deleting GuardDuty Threat Intel Set (" ++ d.id ++ "): " ++
        GuardDuty.decodeErrorMessage d.id], []) := by
  have hd := decode_error_of_length d.id h
  refine ⟨?_, ?_, ?_⟩ <;>
    simp [GuardDuty.resourceThreatIntelSetRead, GuardDuty.resourceThreatIntelSetUpdate,
      GuardDuty.resourceThreatIntelSetDelete, hd]

/-- Claim C1 (refuted by the code): resourceStudioUpdate builds the
UpdateStudioInput for the changed non-tag fields but never issues an
UpdateStudio request: whatever the state, the pending changes and the remote
behaviour, the trace of the update handler contains no UpdateStudio call. -/
theorem studioUpdate_never_issues_update_call (client : ClientCtx)
    (d : EMR.StudioState) (tagsResp : Except AWSError Unit)
    (readFind : Except EMR.FindError EMR.Studio) (inp : EMR.UpdateStudioInput) :
    (EMR.hasChangesExcept d ["tags", "tags_all"] = true →
      (EMR.buildUpdateStudioInput d).isSome = true) ∧
    EMR.StudioCall.updateStudio inp ∉
      (EMR.resourceStudioUpdate client d tagsResp readFind).2.2 := by
  constructor
  · intro h
    simp [EMR.buildUpdateStudioInput, h]
  · unfold EMR.resourceStudioUpdate
    rcases htags : EMR.hasChange d "tags_all" with _ | _ <;>
      rcases tagsResp with e | u <;> simp [htags]

/-- Witness for C1 at a concrete state with a changed name: the update
request is built, yet no UpdateStudio call appears in the trace. -/
theorem studioUpdate_never_issues_update_call_witness :
    (EMR.buildUpdateStudioInput { studioState0 with changes := ["name"] }).isSome = true ∧
    EMR.StudioCall.updateStudio ⟨"es-123", none, some "studio", none, none⟩ ∉
      (EMR.resourceStudioUpdate client0 { studioState0 with changes := ["name"] }
        (.ok ()) (.error .notFound)).2.2 :=
  have h := studioUpdate_never_issues_update_call client0
    { studioState0 with changes := ["name"] } (.ok ()) (.error .notFound)
    ⟨"es-123", none, some "studio", none, none⟩
  ⟨h.1 (by decide), h.2⟩

/-- Claim C8: across the three delete handlers exactly one remote error is
swallowed: a studio delete error with code InternalServerException (the
service's answer for an already-deleted studio) produces no diagnostics, and
every other delete-path error, including a failure of the threat-intel-set
status poll, is surfaced. -/
theorem delete_swallows_only_studio_already_gone
    (dS : EMR.StudioState) (e eOther eG eA eW : AWSError)
    (dT : GuardDuty.TISState) (tisId detId : String)
    (dA : SSM.ActivationState)
    (refresh refresh2 : Nat → Except AWSError String) (i : Nat)
    (hcode : e.code = "InternalServerException")
    (hne : eOther.code ≠ "InternalServerException")
    (hdec : GuardDuty.DecodeThreatIntelSetID dT.id = .ok (tisId, detId))
    (hw : waitForState GuardDuty.tisDeleteStateConf refresh2 = .refreshErr eW i) :
    EMR.resourceStudioDelete dS (.error e) = (dS, [], [.deleteStudio dS.id]) ∧
    (EMR.resourceStudioDelete dS (.error eOther)).2.1 =
      ["deleting EMR Studio (" ++ dS.id ++ "): " ++ eOther.message] ∧
    (GuardDuty.resourceThreatIntelSetDelete dT (.error eG) refresh).2.1 =
      ["deleting GuardDuty Threat Intel Set (" ++ dT.id ++ "): " ++ eG.message] ∧
    (GuardDuty.resourceThreatIntelSetDelete dT (.ok ()) refresh2).2.1 =
      ["waiting for GuardDuty ThreatIntelSet status to be \"DELETED\": " ++ eW.message] ∧
    (SSM.resourceActivationDelete dA (.error eA)).2.1 =
      ["deleting SSM activation: " ++ eA.message] := by
  refine ⟨?_, ?_, ?_, ?_, ?_⟩
  · simp [EMR.resourceStudioDelete, errCodeEquals, hcode]
  · simp [EMR.resourceStudioDelete, errCodeEquals, hne]
  · simp [GuardDuty.resourceThreatIntelSetDelete, hdec]
  · simp [GuardDuty.resourceThreatIntelSetDelete, hdec, hw, waitMessage]
  · simp [SSM.resourceActivationDelete]

/-- Witness for C8 at concrete inputs. -/
theorem delete_swallows_only_studio_already_gone_witness :
    EMR.resourceStudioDelete studioState0 (.error ⟨"InternalServerException", "gone"⟩) =
      (studioState0, [], [.deleteStudio studioState0.id]) ∧
    (EMR.resourceStudioDelete studioState0 (.error ⟨"ValidationException", "bad"⟩)).2.1 =
      ["deleting EMR Studio (" ++ studioState0.id ++ "): " ++ "bad"] ∧
    (GuardDuty.resourceThreatIntelSetDelete tisState0
        (.error ⟨"BadRequestException", "no"⟩) (fun _ => .ok "DELETED")).2.1 =
      ["deleting GuardDuty Threat Intel Set (" ++ tisState0.id ++ "): " ++ "no"] ∧
    (GuardDuty.resourceThreatIntelSetDelete tisState0 (.ok ())
        (fun _ => .error ⟨"X", "boom"⟩)).2.1 =
      ["waiting for GuardDuty ThreatIntelSet status to be \"DELETED\": " ++ "boom"] ∧
    (SSM.resourceActivationDelete activationState0 (.error ⟨"Y", "down"⟩)).2.1 =
      ["deleting SSM activation: " ++ "down"] :=
  delete_swallows_only_studio_already_gone studioState0
    ⟨"InternalServerException", "gone"⟩ ⟨"ValidationException", "bad"⟩
    ⟨"BadRequestException", "no"⟩ ⟨"Y", "down"⟩ ⟨"X", "boom"⟩
    tisState0 "tis" "det" activationState0
    (fun _ => .ok "DELETED") (fun _ => .error ⟨"X", "boom"⟩) 0
    (by decide) (by decide) (by decide) (by decide)

/-- Counterexample to C3 as frozen: at concrete inputs only one of the three
delete handlers (the threat-intel-set one) follows the delete call with a
status poll; both the studio delete and the activation delete return with the
delete call as their only remote request, so it is not the case that two of
the three poll while one does not. -/
theorem delete_polling_counterexample :
    EMR.resourceStudioDelete studioState0 (.ok ()) =
      (studioState0, [], [.deleteStudio "es-123"]) ∧
    SSM.resourceActivationDelete activationState0 (.ok ()) =
      (activationState0, [], [.deleteActivation "act-1"]) ∧
    (GuardDuty.resourceThreatIntelSetDelete tisState0 (.ok ())
        (fun _ => .ok "DELETED")).2.2 =
      [GuardDuty.TISCall.deleteThreatIntelSet "det" "tis",
       GuardDuty.TISCall.getThreatIntelSet "det" "tis"] := by
  refine ⟨by decide, by decide, by decide⟩

/-- Claim C3 amended: only the threat-intel-set delete is followed by a poll
of the remote status field (against the enumerated pending set until DELETED
appears or the 5-minute window at 3-second minimum intervals is exhausted);
the studio and activation deletes complete as soon as the remote delete call
returns, with the delete call as their only remote request. -/
theorem delete_polls_status_only_for_threatintelset (dT : GuardDuty.TISState)
    (tisId detId : String) (refresh : Nat → Except AWSError String)
    (dS : EMR.StudioState) (delRespS : Except AWSError Unit)
    (dA : SSM.ActivationState) (delRespA : Except AWSError Unit)
    (hdec : GuardDuty.DecodeThreatIntelSetID dT.id = .ok (tisId, detId)) :
    (GuardDuty.resourceThreatIntelSetDelete dT (.ok ()) refresh).2.2 =
      GuardDuty.TISCall.deleteThreatIntelSet detId tisId ::
        List.replicate
          (waitCalls (GuardDuty.tisDeleteStateConf.timeoutSec /
              GuardDuty.tisDeleteStateConf.minTimeoutSec)
            (waitForState GuardDuty.tisDeleteStateConf refresh))
          (GuardDuty.TISCall.getThreatIntelSet detId tisId) ∧
    0 < waitCalls (GuardDuty.tisDeleteStateConf.timeoutSec /
        GuardDuty.tisDeleteStateConf.minTimeoutSec)
      (waitForState GuardDuty.tisDeleteStateConf refresh) ∧
    (∀ st i, waitForState GuardDuty.tisDeleteStateConf refresh = .success st i →
      (GuardDuty.resourceThreatIntelSetDelete dT (.ok ()) refresh).2.1 = []) ∧
    (waitForState GuardDuty.tisDeleteStateConf refresh = .timedOut →
      (GuardDuty.resourceThreatIntelSetDelete dT (.ok ()) refresh).2.1 =
        ["waiting for GuardDuty ThreatIntelSet status to be \"DELETED\": " ++
          waitMessage .timedOut]) ∧
    (EMR.resourceStudioDelete dS delRespS).2.2 = [EMR.StudioCall.deleteStudio dS.id] ∧
    (SSM.resourceActivationDelete dA delRespA).2.2 =
      [SSM.ActivationCall.deleteActivation dA.id] := by
  refine ⟨?_, ?_, ?_, ?_, ?_, ?_⟩
  · rcases hw : waitForState GuardDuty.tisDeleteStateConf refresh with
      ⟨st, i⟩ | _ | ⟨e, i⟩ | ⟨s, i⟩ <;>
      simp [GuardDuty.resourceThreatIntelSetDelete, hdec, hw]
  · exact waitCalls_pos _ _ (by decide)
  · intro st i hw
    unfold GuardDuty.resourceThreatIntelSetDelete
    simp [hdec, hw]
  · intro hw
    unfold GuardDuty.resourceThreatIntelSetDelete
    simp [hdec, hw]
  · rcases delRespS with e | u
    · unfold EMR.resourceStudioDelete
      rcases he : errCodeEquals e "InternalServerException" with _ | _ <;> simp [he]
    · simp [EMR.resourceStudioDelete]
  · rcases delRespA with e | u <;> simp [SSM.resourceActivationDelete]

/-- Witness for C3's amended statement at concrete inputs. -/
theorem delete_polls_status_only_for_threatintelset_witness :
    (GuardDuty.resourceThreatIntelSetDelete tisState0 (.ok ())
        (fun _ => .ok "DELETED")).2.2 =
      GuardDuty.TISCall.deleteThreatIntelSet "det" "tis" ::
        List.replicate
          (waitCalls (GuardDuty.tisDeleteStateConf.timeoutSec /
              GuardDuty.tisDeleteStateConf.minTimeoutSec)
            (waitForState GuardDuty.tisDeleteStateConf (fun _ => .ok "DELETED")))
          (GuardDuty.TISCall.getThreatIntelSet "det" "tis") ∧
    0 < waitCalls (GuardDuty.tisDeleteStateConf.timeoutSec /
        GuardDuty.tisDeleteStateConf.minTimeoutSec)
      (waitForState GuardDuty.tisDeleteStateConf (fun _ => .ok "DELETED")) ∧
    (∀ st i, waitForState GuardDuty.tisDeleteStateConf (fun _ => .ok "DELETED") =
        .success st i →
      (GuardDuty.resourceThreatIntelSetDelete tisState0 (.ok ())
        (fun _ => .ok "DELETED")).2.1 = []) ∧
    (waitForState GuardDuty.tisDeleteStateConf (fun _ => .ok "DELETED") = .timedOut →
      (GuardDuty.resourceThreatIntelSetDelete tisState0 (.ok ())
        (fun _ => .ok "DELETED")).2.1 =
        ["waiting for GuardDuty ThreatIntelSet status to be \"DELETED\": " ++
          waitMessage .timedOut]) ∧
    (EMR.resourceStudioDelete studioState0 (.ok ())).2.2 =
      [EMR.StudioCall.deleteStudio studioState0.id] ∧
    (SSM.resourceActivationDelete activationState0 (.ok ())).2.2 =
      [SSM.ActivationCall.deleteActivation activationState0.id] :=
  delete_polls_status_only_for_threatintelset tisState0 "tis" "det"
    (fun _ => .ok "DELETED") studioState0 (.ok ()) activationState0 (.ok ())
    (by decide)

/-- Counterexample to C2 as frozen: at a concrete just-created state
(isNew = true) the threat-intel-set read observing the not-found condition
clears the identity and returns success, although the claim demands that for
a just-created resource the identity be kept and the condition surfaced as an
error. -/
theorem read_not_found_counterexample :
    ({ tisState0 with isNew := true } : GuardDuty.TISState).isNew = true ∧
    GuardDuty.resourceThreatIntelSetRead client0
        (.error ⟨"BadRequestException", GuardDuty.detectorNotOwnedMessage⟩)
        { tisState0 with isNew := true } =
      ({ tisState0 with isNew := true, id := "" }, [],
       [.getThreatIntelSet "det" "tis"]) :=
  ⟨rfl, by decide⟩

/-- Claim C2 amended: a not-found condition on read clears the local identity
and returns success, but the just-created exception holds only in the studio
handler: the threat-intel-set read clears the identity and succeeds even for
a just-created resource, the studio read keeps the identity and surfaces an
error exactly when the resource is new, and the activation read on a new
resource with an empty result list crashes (indexes the empty list) instead
of returning an error. -/
theorem read_not_found_clears_identity_amended (client : ClientCtx)
    (dT : GuardDuty.TISState) (e : AWSError) (tisId detId : String)
    (dS0 dS1 : EMR.StudioState) (dA0 dA1 : SSM.ActivationState)
    (hdec : GuardDuty.DecodeThreatIntelSetID dT.id = .ok (tisId, detId))
    (he : errMessageContains e "BadRequestException"
      GuardDuty.detectorNotOwnedMessage = true)
    (h0 : dS0.isNew = false) (h1 : dS1.isNew = true)
    (hA0 : dA0.isNew = false) (hA1 : dA1.isNew = true) :
    GuardDuty.resourceThreatIntelSetRead client (.error e) dT =
      ({ dT with id := "" }, [], [.getThreatIntelSet detId tisId]) ∧
    EMR.resourceStudioRead client (.error .notFound) dS0 =
      ({ dS0 with id := "" }, []) ∧
    EMR.resourceStudioRead client (.error .notFound) dS1 =
      (dS1, ["reading EMR Studio (" ++ dS1.id ++ "): " ++ EMR.notFoundErrorMessage]) ∧
    SSM.resourceActivationRead client (.ok []) dA0 = some ({ dA0 with id := "" }, []) ∧
    SSM.resourceActivationRead client (.ok []) dA1 = none := by
  refine ⟨?_, ?_, ?_, ?_, ?_⟩
  · simp [GuardDuty.resourceThreatIntelSetRead, hdec, he]
  · simp [EMR.resourceStudioRead, h0]
  · simp [EMR.resourceStudioRead, h1]
  · simp [SSM.resourceActivationRead, hA0]
  · simp [SSM.resourceActivationRead, hA1]

/-- Witness for C2's amended statement at concrete states. -/
theorem read_not_found_clears_identity_amended_witness :
    GuardDuty.resourceThreatIntelSetRead client0
        (.error ⟨"BadRequestException", GuardDuty.detectorNotOwnedMessage⟩) tisState0 =
      ({ tisState0 with id := "" }, [], [.getThreatIntelSet "det" "tis"]) ∧
    EMR.resourceStudioRead client0 (.error .notFound) studioState0 =
      ({ studioState0 with id := "" }, []) ∧
    EMR.resourceStudioRead client0 (.error .notFound)
        { studioState0 with isNew := true } =
      ({ studioState0 with isNew := true },
       ["reading EMR Studio (" ++ ({ studioState0 with isNew := true } :
          EMR.StudioState).id ++ "): " ++ EMR.notFoundErrorMessage]) ∧
    SSM.resourceActivationRead client0 (.ok []) activationState0 =
      some ({ activationState0 with id := "" }, []) ∧
    SSM.resourceActivationRead client0 (.ok [])
        { activationState0 with isNew := true } = none :=
  read_not_found_clears_identity_amended client0 tisState0
    ⟨"BadRequestException", GuardDuty.detectorNotOwnedMessage⟩ "tis" "det"
    studioState0 { studioState0 with isNew := true }
    activationState0 { activationState0 with isNew := true }
    (by decide) (by decide) rfl rfl rfl rfl

/-- Claim C9: after a successful read of any of the three handlers the
persisted full tag set tags_all is a superset of the persisted user-facing
tag set tags; the user-facing set is the full set with the default-injected
entries removed. -/
theorem read_tags_subset_tags_all (client : ClientCtx)
    (resp : GuardDuty.GetTISOutput) (dT : GuardDuty.TISState)
    (tisId detId : String)
    (studio : EMR.Studio) (dS : EMR.StudioState)
    (act : SSM.Activation) (rest : List SSM.Activation) (dA : SSM.ActivationState)
    (hdec : GuardDuty.DecodeThreatIntelSetID dT.id = .ok (tisId, detId)) :
    (GuardDuty.resourceThreatIntelSetRead client (.ok resp) dT).1.tags ⊆
      (GuardDuty.resourceThreatIntelSetRead client (.ok resp) dT).1.tags_all ∧
    (EMR.resourceStudioRead client (.ok studio) dS).1.tags ⊆
      (EMR.resourceStudioRead client (.ok studio) dS).1.tags_all ∧
    ssmReadTagsSubset (SSM.resourceActivationRead client (.ok (act :: rest)) dA) := by
  refine ⟨?_, ?_, ?_⟩
  · simp only [GuardDuty.resourceThreatIntelSetRead, hdec]
    exact List.filter_subset' _
  · simp only [EMR.resourceStudioRead]
    exact List.filter_subset' _
  · simp [SSM.resourceActivationRead, ssmReadTagsSubset, removeDefaultConfig]

/-- Witness for C9 at concrete read responses carrying tags. -/
theorem read_tags_subset_tags_all_witness :
    (GuardDuty.resourceThreatIntelSetRead
        { client0 with defaultTags := [("d", "1")] }
        (.ok ⟨"TXT", "https://s3.amazonaws.com/b/k", "n", "ACTIVE",
          [("k", "v"), ("d", "1")]⟩) tisState0).1.tags ⊆
      (GuardDuty.resourceThreatIntelSetRead
        { client0 with defaultTags := [("d", "1")] }
        (.ok ⟨"TXT", "https://s3.amazonaws.com/b/k", "n", "ACTIVE",
          [("k", "v"), ("d", "1")]⟩) tisState0).1.tags_all ∧
    (EMR.resourceStudioRead { client0 with defaultTags := [("d", "1")] }
        (.ok ⟨"arn:s", "SSO", "s3://b/p", "", "sg-1", "", "", "studio",
          "arn:r", "https://u", "", "vpc-1", "sg-2", ["subnet-1"],
          [("k", "v"), ("d", "1")]⟩) studioState0).1.tags ⊆
      (EMR.resourceStudioRead { client0 with defaultTags := [("d", "1")] }
        (.ok ⟨"arn:s", "SSO", "s3://b/p", "", "sg-1", "", "", "studio",
          "arn:r", "https://u", "", "vpc-1", "sg-2", ["subnet-1"],
          [("k", "v"), ("d", "1")]⟩) studioState0).1.tags_all ∧
    ssmReadTagsSubset (SSM.resourceActivationRead
      { client0 with defaultTags := [("d", "1")] }
      (.ok [⟨some "n", none, none, false, some "role", none, none,
        [("k", "v"), ("d", "1")]⟩]) activationState0) :=
  read_tags_subset_tags_all { client0 with defaultTags := [("d", "1")] }
    ⟨"TXT", "https://s3.amazonaws.com/b/k", "n", "ACTIVE", [("k", "v"), ("d", "1")]⟩
    tisState0 "tis" "det"
    ⟨"arn:s", "SSO", "s3://b/p", "", "sg-1", "", "", "studio",
      "arn:r", "https://u", "", "vpc-1", "sg-2", ["subnet-1"],
      [("k", "v"), ("d", "1")]⟩ studioState0
    ⟨some "n", none, none, false, some "role", none, none,
      [("k", "v"), ("d", "1")]⟩ [] activationState0
    (by decide)

/-- Claim C6: for the threat-intel-set poll loops (create and delete
configurations, 5-minute timeout at 3-second minimum intervals) a
pending-pending-terminal observation sequence succeeds exactly at the
observation where the terminal value first appears, and a sequence that stays
pending for the whole window times out, the enclosing operation surfacing the
timeout as an error. -/
theorem tisPollLoop_terminal_and_timeout
    (p1 p2 t q1 q2 u : String)
    (refreshC refreshD refreshP refreshQ : Nat → Except AWSError String)
    (client : ClientCtx) (dT dT2 : GuardDuty.TISState)
    (out : GuardDuty.CreateTISOutput)
    (readResp : Except AWSError GuardDuty.GetTISOutput)
    (tisId detId : String)
    (hp1 : GuardDuty.tisCreateStateConf.pending.contains p1 = true)
    (hp2 : GuardDuty.tisCreateStateConf.pending.contains p2 = true)
    (ht : GuardDuty.tisCreateStateConf.target.contains t = true)
    (hc0 : refreshC 0 = .ok p1) (hc1 : refreshC 1 = .ok p2) (hc2 : refreshC 2 = .ok t)
    (hq1 : GuardDuty.tisDeleteStateConf.pending.contains q1 = true)
    (hq2 : GuardDuty.tisDeleteStateConf.pending.contains q2 = true)
    (hu : GuardDuty.tisDeleteStateConf.target.contains u = true)
    (hd0 : refreshD 0 = .ok q1) (hd1 : refreshD 1 = .ok q2) (hd2 : refreshD 2 = .ok u)
    (hP : ∀ i, ∃ s, refreshP i = .ok s ∧
      GuardDuty.tisCreateStateConf.pending.contains s = true ∧
      GuardDuty.tisCreateStateConf.target.contains s = false)
    (hQ : ∀ i, ∃ s, refreshQ i = .ok s ∧
      GuardDuty.tisDeleteStateConf.pending.contains s = true ∧
      GuardDuty.tisDeleteStateConf.target.contains s = false)
    (hdec : GuardDuty.DecodeThreatIntelSetID dT2.id = .ok (tisId, detId)) :
    waitForState GuardDuty.tisCreateStateConf refreshC = .success t 2 ∧
    waitForState GuardDuty.tisDeleteStateConf refreshD = .success u 2 ∧
    waitForState GuardDuty.tisCreateStateConf refreshP = .timedOut ∧
    (GuardDuty.resourceThreatIntelSetCreate client dT (fun _ => .ok out)
        refreshP readResp).2.1 =
      ["creating GuardDuty Threat Intel Set (" ++ dT.name ++
        "): waiting for completion: " ++ waitMessage .timedOut] ∧
    waitForState GuardDuty.tisDeleteStateConf refreshQ = .timedOut ∧
    (GuardDuty.resourceThreatIntelSetDelete dT2 (.ok ()) refreshQ).2.1 =
      ["waiting for GuardDuty ThreatIntelSet status to be \"DELETED\": " ++
        waitMessage .timedOut] := by
  have hwP : waitForState GuardDuty.tisCreateStateConf refreshP = .timedOut :=
    waitForState_always_pending _ _ hP
  have hwQ : waitForState GuardDuty.tisDeleteStateConf refreshQ = .timedOut :=
    waitForState_always_pending _ _ hQ
  refine ⟨?_, ?_, hwP, ?_, hwQ, ?_⟩
  · exact waitLoop_pp_t _ _ refreshC p1 p2 t 97 hc0 hc1 hc2
      hp1 (tisCreate_pending_not_target p1 hp1)
      hp2 (tisCreate_pending_not_target p2 hp2) ht
  · exact waitLoop_pp_t _ _ refreshD q1 q2 u 97 hd0 hd1 hd2
      hq1 (tisDelete_pending_not_target q1 hq1)
      hq2 (tisDelete_pending_not_target q2 hq2) hu
  · simp [GuardDuty.resourceThreatIntelSetCreate, hwP]
  · simp [GuardDuty.resourceThreatIntelSetDelete, hdec, hwQ]

/-- Witness for C6 at concrete observation sequences. -/
theorem tisPollLoop_terminal_and_timeout_witness :
    waitForState GuardDuty.tisCreateStateConf
        (fun i => if i == 0 then .ok "ACTIVATING" else
          if i == 1 then .ok "DEACTIVATING" else .ok "ACTIVE") =
      .success "ACTIVE" 2 ∧
    waitForState GuardDuty.tisDeleteStateConf
        (fun i => if i == 0 then .ok "ACTIVE" else
          if i == 1 then .ok "DELETE_PENDING" else .ok "DELETED") =
      .success "DELETED" 2 ∧
    waitForState GuardDuty.tisCreateStateConf (fun _ => .ok "ACTIVATING") = .timedOut ∧
    (GuardDuty.resourceThreatIntelSetCreate client0 tisState0
        (fun _ => .ok ⟨"tis"⟩) (fun _ => .ok "ACTIVATING")
        (.ok ⟨"TXT", "https://s3.amazonaws.com/b/k", "n", "ACTIVE", []⟩)).2.1 =
      ["creating GuardDuty Threat Intel Set (" ++ tisState0.name ++
        "): waiting for completion: " ++ waitMessage .timedOut] ∧
    waitForState GuardDuty.tisDeleteStateConf (fun _ => .ok "DELETE_PENDING") = .timedOut ∧
    (GuardDuty.resourceThreatIntelSetDelete tisState0 (.ok ())
        (fun _ => .ok "DELETE_PENDING")).2.1 =
      ["waiting for GuardDuty ThreatIntelSet status to be \"DELETED\": " ++
        waitMessage .timedOut] :=
  tisPollLoop_terminal_and_timeout
    "ACTIVATING" "DEACTIVATING" "ACTIVE" "ACTIVE" "DELETE_PENDING" "DELETED"
    (fun i => if i == 0 then .ok "ACTIVATING" else
      if i == 1 then .ok "DEACTIVATING" else .ok "ACTIVE")
    (fun i => if i == 0 then .ok "ACTIVE" else
      if i == 1 then .ok "DELETE_PENDING" else .ok "DELETED")
    (fun _ => .ok "ACTIVATING") (fun _ => .ok "DELETE_PENDING")
    client0 tisState0 tisState0 ⟨"tis"⟩
    (.ok ⟨"TXT", "https://s3.amazonaws.com/b/k", "n", "ACTIVE", []⟩)
    "tis" "det"
    (by decide) (by decide) (by decide) (by decide) (by decide) (by decide)
    (by decide) (by decide) (by decide) (by decide) (by decide) (by decide)
    (fun i => ⟨"ACTIVATING", rfl, by decide, by decide⟩)
    (fun i => ⟨"DELETE_PENDING", rfl, by decide, by decide⟩)
    (by decide)

/-- Claim C7: in the studio and activation create handlers a failing create
call is retried within the bounded window exactly when the error matches one
of the enumerated code-plus-message-substring patterns; a non-matching error
ends the retry loop at the first attempt and is surfaced with the static
prefix of the failed create operation. -/
theorem createRetry_gated_by_error_patterns (client : ClientCtx) (fuel : Nat)
    (dS : EMR.StudioState) (e eR : AWSError)
    (callS callSR : Nat → Except AWSError EMR.CreateStudioOutput)
    (serverS : EMR.CreateStudioInput → Nat → Except AWSError EMR.CreateStudioOutput)
    (readFind : Except EMR.FindError EMR.Studio)
    (dA : SSM.ActivationState) (e2 e2R : AWSError)
    (callA callAR : Nat → Except AWSError SSM.CreateActivationOutput)
    (serverA : SSM.CreateActivationInput → Nat → Except AWSError SSM.CreateActivationOutput)
    (describeResp : Except AWSError (List SSM.Activation))
    (he : EMR.studioRetryable e = false)
    (heR : EMR.studioRetryable eR = true)
    (hc : callS 0 = .error e) (hcR : callSR 0 = .error eR)
    (hs : serverS (EMR.buildCreateStudioInput client dS) 0 = .error e)
    (he2 : SSM.activationRetryable e2 = false)
    (he2R : SSM.activationRetryable e2R = true)
    (hc2 : callA 0 = .error e2) (hc2R : callAR 0 = .error e2R)
    (hs2 : serverA (SSM.buildCreateActivationInput client dA) 0 = .error e2) :
    retryLoop EMR.studioRetryable callS 0 fuel = .nonRetryable e 1 ∧
    retryLoop EMR.studioRetryable callSR 0 (fuel + 1) =
      retryLoop EMR.studioRetryable callSR 1 fuel ∧
    EMR.resourceStudioCreate client dS serverS fuel readFind =
      (dS, ["creating EMR Studio: " ++ e.message]) ∧
    retryLoop SSM.activationRetryable callA 0 fuel = .nonRetryable e2 1 ∧
    retryLoop SSM.activationRetryable callAR 0 (fuel + 1) =
      retryLoop SSM.activationRetryable callAR 1 fuel ∧
    SSM.resourceActivationCreate client dA serverA fuel describeResp =
      some (dA, ["creating SSM activation: " ++ e2.message]) := by
  refine ⟨retryLoop_first_error_nonretryable _ _ _ _ hc he,
    retryLoop_first_error_retryable _ _ _ _ hcR heR, ?_,
    retryLoop_first_error_nonretryable _ _ _ _ hc2 he2,
    retryLoop_first_error_retryable _ _ _ _ hc2R he2R, ?_⟩
  · have hloop := retryLoop_first_error_nonretryable _ _ _ fuel hs he
    simp [EMR.resourceStudioCreate, hloop]
  · have hloop := retryLoop_first_error_nonretryable _ _ _ fuel hs2 he2
    simp [SSM.resourceActivationCreate, hloop]

/-- Witness for C7: a throttling error is not retried and is surfaced with
the create prefix, while the enumerated role-propagation errors are
retried. -/
theorem createRetry_gated_by_error_patterns_witness :
    retryLoop EMR.studioRetryable
        (fun _ => (.error ⟨"ThrottlingException", "slow down"⟩ :
          Except AWSError EMR.CreateStudioOutput)) 0 3 =
      .nonRetryable ⟨"ThrottlingException", "slow down"⟩ 1 ∧
    retryLoop EMR.studioRetryable
        (fun _ => (.error ⟨"InvalidRequestException",
          "entity does not have permissions to assume role"⟩ :
          Except AWSError EMR.CreateStudioOutput)) 0 (3 + 1) =
      retryLoop EMR.studioRetryable
        (fun _ => (.error ⟨"InvalidRequestException",
          "entity does not have permissions to assume role"⟩ :
          Except AWSError EMR.CreateStudioOutput)) 1 3 ∧
    EMR.resourceStudioCreate client0 studioState0
        (fun _ _ => .error ⟨"ThrottlingException", "slow down"⟩) 3 (.error .notFound) =
      (studioState0, ["creating EMR Studio: " ++ "slow down"]) ∧
    retryLoop SSM.activationRetryable
        (fun _ => (.error ⟨"AccessDenied", "nope"⟩ :
          Except AWSError SSM.CreateActivationOutput)) 0 3 =
      .nonRetryable ⟨"AccessDenied", "nope"⟩ 1 ∧
    retryLoop SSM.activationRetryable
        (fun _ => (.error ⟨"ValidationException", "Not existing role"⟩ :
          Except AWSError SSM.CreateActivationOutput)) 0 (3 + 1) =
      retryLoop SSM.activationRetryable
        (fun _ => (.error ⟨"ValidationException", "Not existing role"⟩ :
          Except AWSError SSM.CreateActivationOutput)) 1 3 ∧
    SSM.resourceActivationCreate client0 activationState0
        (fun _ _ => .error ⟨"AccessDenied", "nope"⟩) 3 (.ok []) =
      some (activationState0, ["creating SSM activation: " ++ "nope"]) :=
  createRetry_gated_by_error_patterns client0 3 studioState0
    ⟨"ThrottlingException", "slow down"⟩
    ⟨"InvalidRequestException", "entity does not have permissions to assume role"⟩
    (fun _ => .error ⟨"ThrottlingException", "slow down"⟩)
    (fun _ => .error ⟨"InvalidRequestException",
      "entity does not have permissions to assume role"⟩)
    (fun _ _ => .error ⟨"ThrottlingException", "slow down"⟩)
    (.error .notFound)
    activationState0 ⟨"AccessDenied", "nope"⟩ ⟨"ValidationException", "Not existing role"⟩
    (fun _ => .error ⟨"AccessDenied", "nope"⟩)
    (fun _ => .error ⟨"ValidationException", "Not existing role"⟩)
    (fun _ _ => .error ⟨"AccessDenied", "nope"⟩)
    (.ok [])
    (by decide) (by decide) rfl rfl rfl (by decide) (by decide) rfl rfl rfl

/-- Counterexample to C4 as frozen: against an echoing remote service, a
configuration whose expiration timestamp carries fractional seconds (valid
RFC3339) comes back re-rendered without them, and a configuration whose
required role reference is empty comes back with the name field in the role
reference (the create request initialises IamRole from the name field), so
create-then-read does not leave every submitted field value unchanged. -/
theorem createThenRead_roundtrip_counterexample :
    activationCfgFrac.expiration_date = "2025-01-01T00:00:00.5Z" ∧
    ((SSM.resourceActivationCreate client0 activationCfgFrac
        (fun _ _ => .ok ⟨some "act-9", some "code"⟩) 3
        (.ok [SSM.echoActivation
          (SSM.buildCreateActivationInput client0 activationCfgFrac)])).map
      (fun res => res.1.expiration_date)) = some "2025-01-01T00:00:00Z" ∧
    ("2025-01-01T00:00:00Z" : String) ≠ "2025-01-01T00:00:00.5Z" ∧
    activationCfgNoRole.iam_role = "" ∧
    ((SSM.resourceActivationCreate client0 activationCfgNoRole
        (fun _ _ => .ok ⟨some "act-9", some "code"⟩) 3
        (.ok [SSM.echoActivation
          (SSM.buildCreateActivationInput client0 activationCfgNoRole)])).map
      (fun res => res.1.iam_role)) = some "n" ∧
    ("n" : String) ≠ "" :=
  ⟨rfl, by decide, by decide, rfl, by decide, by decide⟩

/-- Claim C4 amended: against a remote service that stores and echoes the
submitted values, create followed by read leaves the submitted name,
description, role reference, expiration timestamp, registration limit and
activation flag unchanged in local state, provided the role reference is
non-empty and the expiration timestamp is the canonical RFC3339 rendering of
its parsed value (in particular carries no fractional seconds). -/
theorem createThenRead_roundtrip_amended (client : ClientCtx) (fuel : Nat)
    (dA : SSM.ActivationState) (t : GoTime) (aid code : String)
    (dT : GuardDuty.TISState) (tisIdStr : String)
    (hrole : dA.iam_role ≠ "")
    (hparse : parseRFC3339 dA.expiration_date = some t)
    (hcanon : formatRFC3339 t = dA.expiration_date)
    (hdet : ':' ∉ dT.detector_id.data)
    (htis : ':' ∉ tisIdStr.data) :
    ssmRoundtrip dA
      (SSM.resourceActivationCreate client dA
        (fun _ _ => .ok ⟨some aid, some code⟩) fuel
        (.ok [SSM.echoActivation (SSM.buildCreateActivationInput client dA)])) ∧
    tisRoundtrip dT
      (GuardDuty.resourceThreatIntelSetCreate client dT
        (fun _ => .ok ⟨tisIdStr⟩)
        (fun _ => .ok (if dT.activate then "ACTIVE" else "INACTIVE"))
        (.ok (GuardDuty.echoTIS (GuardDuty.buildCreateTISInput client dT)))) := by
  have hne : dA.expiration_date ≠ "" := by
    intro h
    rw [h] at hparse
    simp [parseRFC3339] at hparse
  have hok : retryLoop SSM.activationRetryable
      (fun _ => (.ok ⟨some aid, some code⟩ :
        Except AWSError SSM.CreateActivationOutput)) 0 fuel =
      .ok ⟨some aid, some code⟩ 1 :=
    retryLoop_first_ok _ _ _ _ rfl
  have hwA : waitForState GuardDuty.tisCreateStateConf (fun _ => .ok "ACTIVE") =
      .success "ACTIVE" 0 :=
    waitLoop_step_target _ _ _ 0 99 _ rfl (by decide)
  have hwI : waitForState GuardDuty.tisCreateStateConf (fun _ => .ok "INACTIVE") =
      .success "INACTIVE" 0 :=
    waitLoop_step_target _ _ _ 0 99 _ rfl (by decide)
  have hdec2 := decode_ok_of_parts dT.detector_id tisIdStr hdet htis
  constructor
  · by_cases hn : dA.name = "" <;> by_cases hdsc : dA.description = "" <;>
      by_cases hrl : dA.registration_limit = 0 <;>
      simp [SSM.resourceActivationCreate, SSM.resourceActivationRead,
        SSM.buildCreateActivationInput, SSM.echoActivation, ssmRoundtrip,
        hok, hn, hdsc, hrl, hrole, hne, hparse, hcanon]
  · by_cases ha : dT.activate <;>
      simp [GuardDuty.resourceThreatIntelSetCreate, GuardDuty.resourceThreatIntelSetRead,
        GuardDuty.buildCreateTISInput, GuardDuty.echoTIS, tisRoundtrip,
        GuardDuty.ThreatIntelSetStatusActive, GuardDuty.ThreatIntelSetStatusInactive,
        ha, hdec2, hwA, hwI]

/-- Witness for C4's amended statement at a concrete configuration with a
canonical expiration timestamp and a non-empty role reference. -/
theorem createThenRead_roundtrip_amended_witness :
    ssmRoundtrip { activationState0 with expiration_date := "2025-01-01T00:00:00Z" }
      (SSM.resourceActivationCreate client0
        { activationState0 with expiration_date := "2025-01-01T00:00:00Z" }
        (fun _ _ => .ok ⟨some "act-9", some "code"⟩) 3
        (.ok [SSM.echoActivation (SSM.buildCreateActivationInput client0
          { activationState0 with expiration_date := "2025-01-01T00:00:00Z" })])) ∧
    tisRoundtrip tisState0
      (GuardDuty.resourceThreatIntelSetCreate client0 tisState0
        (fun _ => .ok ⟨"tis"⟩)
        (fun _ => .ok (if tisState0.activate then "ACTIVE" else "INACTIVE"))
        (.ok (GuardDuty.echoTIS (GuardDuty.buildCreateTISInput client0 tisState0)))) :=
  createThenRead_roundtrip_amended client0 3
    { activationState0 with expiration_date := "2025-01-01T00:00:00Z" }
    ⟨2025, 1, 1, 0, 0, 0, [], 0⟩ "act-9" "code" tisState0 "tis"
    (by decide) (by decide) (by decide) (by decide) (by decide)

/-- Witness for C5 at the concrete malformed identifier "nocolon". -/
theorem tisHandlers_reject_malformed_id_witness :
    GuardDuty.resourceThreatIntelSetRead client0 (Except.error ⟨"X", "boom"⟩)
        { tisState0 with id := "nocolon" } =
      ({ tisState0 with id := "nocolon" },
       ["reading GuardDuty Threat Intel Set (nocolon): GuardDuty ThreatIntelSet ID must be of the form <Detector ID>:<ThreatIntelSet ID>, was provided: nocolon"],
       []) ∧
    GuardDuty.resourceThreatIntelSetUpdate client0 { tisState0 with id := "nocolon" }
        (fun _ => Except.ok ()) (Except.ok ()) (Except.error ⟨"X", "boom"⟩) =
      ({ tisState0 with id := "nocolon" },
       ["updating GuardDuty Threat Intel Set (nocolon): GuardDuty ThreatIntelSet ID must be of the form <Detector ID>:<ThreatIntelSet ID>, was provided: nocolon"],
       []) ∧
    GuardDuty.resourceThreatIntelSetDelete { tisState0 with id := "nocolon" }
        (Except.ok ()) (fun _ => Except.ok "DELETED") =
      ({ tisState0 with id := "nocolon" },
       ["deleting GuardDuty Threat Intel Set (nocolon): GuardDuty ThreatIntelSet ID must be of the form <Detector ID>:<ThreatIntelSet ID>, was provided: nocolon"],
       []) :=
  tisHandlers_reject_malformed_id client0 { tisState0 with id := "nocolon" }
    (Except.error ⟨"X", "boom"⟩) (fun _ => Except.ok ()) (Except.ok ())
    (Except.error ⟨"X", "boom"⟩) (Except.ok ()) (fun _ => Except.ok "DELETED")
    (by decide)

end Tf
